import Mathlib

/-!
Shallow embedding of `scraper.py` (aerospace research aggregation pipeline)
and verification of its specification claims.

Modelling conventions:
* Python dicts produced by the source adapters are embedded as structures
  whose fields are `Option`s when the corresponding key may be absent or null.
* Python truthiness of an optional string (`if not url: ...`) is `pyTruthyStr`.
* Time is modelled in days as `Int`; `datetime.now() - timedelta(days=7)`
  becomes `now - 7`.  Library date parsers (`datetime.fromisoformat`,
  `datetime.strptime`, feedparser's `published_parsed`) are abstract
  parameters `String → Option Int` (parse failure = `none`).
* String manipulation (`split('. ')`, `replace`, `lower().endswith`) is
  embedded on `List Char` with structural recursion so that concrete
  instances reduce in the kernel.
-/

/-- A normalized candidate record as built by every source adapter
(`title`, `url`, `abstract`, `source`, `relevance` keys of the dicts
appended in `fetch_*_data`).  `url` is `Option` because `item.get("url")`
in `main` may be `None`. -/
structure Candidate where
  title : String
  url : Option String
  abstract : String
  source : String
  relevance : String
deriving DecidableEq

/-- Python truthiness of an optional string: `None` and `""` are falsy. -/
def pyTruthyStr : Option String → Bool
  | none => false
  | some s => s != ""

/-- Python `a or b` on optional strings. -/
def py_or (a b : Option String) : Option String :=
  if pyTruthyStr a then a else b

/-- `abstract.replace('\r', '').replace('\n', ' ')` from `main`
(line 498), on the character list. -/
def pyCleanChars (cs : List Char) : List Char :=
  (cs.filter (fun c => c != '\r')).map (fun c => if c = '\n' then ' ' else c)

/-- Fueled worker for Python `str.split('. ')`: scan left to right, cutting
at each non-overlapping occurrence of the separator `". "`. -/
def split_dot_space_aux : Nat → List Char → List Char → List (List Char)
  | _, acc, [] => [acc.reverse]
  | 0, acc, rest => [acc.reverse ++ rest]
  | fuel+1, acc, '.' :: ' ' :: rest => acc.reverse :: split_dot_space_aux fuel [] rest
  | fuel+1, acc, c :: rest => split_dot_space_aux fuel (c :: acc) rest

/-- Python `s.split('. ')`. -/
def py_split_dot_space (cs : List Char) : List (List Char) :=
  split_dot_space_aux cs.length [] cs

/-- Python `". ".join(pieces)`. -/
def join_dot_space : List (List Char) → List Char
  | [] => []
  | [x] => x
  | x :: xs => x ++ '.' :: ' ' :: join_dot_space xs

/-- The abstract-truncation logic inlined in `main` (lines 495-503):
first 3 sentences of the abstract split on `". "`, re-joined with `". "`,
with `"..."` appended when more sentences remain; the fixed placeholder
for an empty abstract. -/
def summarize (abstract : String) : String :=
  if abstract = "" then "No abstract available."
  else
    let sentences := py_split_dot_space (pyCleanChars abstract.toList)
    let joined := join_dot_space (sentences.take 3)
    if sentences.length > 3 then ⟨joined ++ ['.', '.', '.']⟩ else ⟨joined⟩

/-- `url.lower().endswith(".pdf")` from `main` (line 476): lower-case the
url and test for the `".pdf"` suffix. -/
def is_pdf_url (url : String) : Bool :=
  List.isSuffixOf ['.', 'p', 'd', 'f'] (url.toList.map Char.toLower)

/-- The Markdown block appended to `Research_Log.md` for one accepted
candidate (`main`, lines 490-505). -/
def format_log_entry (date_str : String) (item : Candidate) (url : String) : String :=
  "\n### [" ++ date_str ++ "] " ++ item.title ++ "\n" ++
  "**Source:** " ++ url ++ "\n" ++
  "**Relevance:** " ++ item.relevance ++ "\n" ++
  "**Summary:**\n> " ++ summarize item.abstract ++ "\n---\n"

/-- The mutable state threaded through the dedup/accept loop of `main`:
the in-memory `seen_ids` set, the blocks appended to `Research_Log.md`
during this run, and `new_entries_count`.

The Python `set` holding the seen urls is modelled as a `List String`
used only through membership and element insertion, so that all
operations stay executable; `seen_ids.add(url)` (reached only when
`url not in seen_ids`) is list cons. -/
structure RunState where
  seen : List String
  log : List String
  count : Nat
deriving DecidableEq

/-- One iteration of the dedup/accept loop of `main` (lines 462-512):
skip when `url` is falsy (`None` or empty); skip when `url` is already in
`seen_ids`; when the url has a `.pdf` suffix, ask the readability verifier
and skip when unreadable; otherwise append a log entry, add the url to
`seen_ids` and bump the counter.  The verifier is the oracle
`verifier : url → (is_readable, text_sample)`; the optional
`download_pdf` call (line 515-516) only writes to disk and is not part of
the pipeline state. -/
def process_item (verifier : String → Bool × String) (date_str : String)
    (st : RunState) (item : Candidate) : RunState :=
  match item.url with
  | none => st
  | some url =>
    if url = "" then st
    else if url ∈ st.seen then st
    else
      let readable := if is_pdf_url url then (verifier url).1 else true
      if readable then
        { seen := url :: st.seen,
          log := st.log ++ [format_log_entry date_str item url],
          count := st.count + 1 }
      else st

/-- The dedup/accept loop of `main` over a candidate list, starting from a
loaded seen-set, an empty list of newly appended log blocks and
`new_entries_count = 0`. -/
def run_loop (verifier : String → Bool × String) (date_str : String)
    (seen0 : List String) (items : List Candidate) : RunState :=
  items.foldl (process_item verifier date_str) ⟨seen0, [], 0⟩

/-- The candidate list that actually reaches the dedup/accept loop of
`main`, as a function of the five adapters' outputs (lines 440-459).
`main` fetches NASA and FAA twice; with the adapters' outputs given as
fixed lists, both fetches return the same list.  The three successive
assignments to `all_results` mirror lines 445, 458 and 459: the first two
are dead stores. -/
def main_candidate_list (nasa faa arxiv openalex brave : List Candidate) :
    List Candidate :=
  let all_results := nasa ++ faa ++ arxiv ++ openalex
  let all_results := nasa ++ faa ++ brave
  let all_results := nasa ++ faa
  all_results

/-- State of the `seen_ids.json` backing file as `load_seen_ids` sees it:
missing, present but not valid JSON (`json.JSONDecodeError`), or a valid
JSON array of strings (the only shape `save_seen_ids` ever writes). -/
inductive SeenFileState where
  | absent
  | invalidJson
  | validJson (urls : List String)
deriving DecidableEq

/-- `load_seen_ids` (lines 379-389): empty set when the file is missing,
empty set when `json.load` raises `JSONDecodeError`, otherwise the set of
the stored strings (as a list used through membership only). -/
def load_seen_ids : SeenFileState → List String
  | .absent => []
  | .invalidJson => []
  | .validJson urls => urls

/-- `save_seen_ids` (lines 391-396): `json.dump(list(seen_ids), f)` —
the backing file is rewritten with the full current set as a JSON array. -/
def save_seen_ids (seen_ids : List String) : SeenFileState :=
  .validJson seen_ids

/-- Outcome of the fetch-and-parse phase of `verify_pdf_readability` for a
url: a transport error or non-success status (the outer `except`), a
`pypdf` parse/extraction error (the inner `except`), or a parsed document
given by the extracted text of each of its pages. -/
inductive PdfFetchOutcome where
  | transportError
  | parseFailure
  | document (pages : List String)
deriving DecidableEq

/-- Python `str.isspace` on one character — the set `str.strip()` removes:
`\t\n\v\f\r` (U+0009–U+000D), U+001C–U+001F, space, U+0085 (NEL),
U+00A0 (NBSP), U+1680, U+2000–U+200A, U+2028, U+2029, U+202F, U+205F and
U+3000. -/
def py_is_whitespace (c : Char) : Bool :=
  let n := c.toNat
  decide ((9 ≤ n ∧ n ≤ 13) ∨ (28 ≤ n ∧ n ≤ 31) ∨ n = 32 ∨ n = 133 ∨
    n = 160 ∨ n = 0x1680 ∨ (0x2000 ≤ n ∧ n ≤ 0x200A) ∨ n = 0x2028 ∨
    n = 0x2029 ∨ n = 0x202F ∨ n = 0x205F ∨ n = 0x3000)

/-- Python `len(text.strip()) > 0`: the string keeps at least one
character after stripping leading and trailing whitespace, i.e. it
contains a character outside Python's whitespace set. -/
def py_strip_nonempty (text : String) : Bool :=
  text.toList.any (fun c => !py_is_whitespace c)

/-- `verify_pdf_readability` (lines 398-430), as a function of the
fetch-and-parse outcome for the url: `(False, "")` on a transport error,
non-success status or parse failure; on a parsed document with at least
one page, extract the first page's text and return `(True, text[:500])`
when `text and len(text.strip()) > 0`, falling through to `(False, "")`
otherwise (also for a document with zero pages). -/
def verify_pdf_readability : PdfFetchOutcome → Bool × String
  | .transportError => (false, "")
  | .parseFailure => (false, "")
  | .document pages =>
    match pages with
    | [] => (false, "")
    | text :: _ =>
      if (text != "") && py_strip_nonempty text then (true, text.take 500)
      else (false, "")

/-! ### Source adapters: the recency-filtering stage

For each `fetch_*_data` function we embed the part of its result loop that
decides whether a fetched record is retained or skipped (`continue`d).
The per-record field mapping to a `Candidate` does not influence
retention and is left out of these definitions. -/

/-- One entry of a NASA record's `publications` array.
`publicationDate = none` means the key is absent; `some none` means the
key is present with a JSON `null`; `some (some s)` a string value.  The
distinction matters: `"publicationDate" in pub` at line 161 tests key
presence, not truthiness. -/
structure NasaPublication where
  publicationDate : Option (Option String)
deriving DecidableEq

/-- The fields of one NASA NTRS result record read by the date check of
`fetch_nasa_data` (lines 155-181).  A missing `publications` key and an
empty `publications` array behave identically and are both `[]`. -/
structure NasaItem where
  publications : List NasaPublication
  distributionDate : Option String
  submittedDate : Option String
deriving DecidableEq

/-- `pub_date_str` resolution in `fetch_nasa_data` (lines 158-167): the
loop breaks at the first publication entry carrying the
`publicationDate` key — even when its value is null — and if the value
obtained this way is falsy, falls back to
`item.get("distributionDate") or item.get("submittedDate")`. -/
def nasa_pub_date_str (item : NasaItem) : Option String :=
  let fromPubs : Option String :=
    match item.publications.find? (fun p => p.publicationDate.isSome) with
    | some p =>
      match p.publicationDate with
      | some v => v
      | none => none
    | none => none
  if pyTruthyStr fromPubs then fromPubs
  else py_or item.distributionDate item.submittedDate

/-- Outcome of `datetime.fromisoformat` on the massaged date string:
`failed` is a `ValueError` (caught at line 180); `naive d` a
timezone-naive datetime, comparable with the naive `start_date`;
`aware d` a timezone-aware datetime (the string kept an offset suffix,
e.g. a trailing `Z` rewritten to `+00:00` with no fractional seconds) —
comparing it with the naive `start_date` at line 178 raises `TypeError`,
which `except ValueError` does not catch, so it aborts the whole run. -/
inductive IsoParseResult where
  | failed
  | naive (d : Int)
  | aware (d : Int)
deriving DecidableEq

/-- The string surgery of line 173 before parsing:
`pub_date_str.replace('Z', '+00:00').split('.')[0]`, fed to the abstract
ISO-8601 parser.  Replacing the single character `Z` is a character map
into the multi-character replacement, then the split on `.` keeps the
first segment. -/
def nasa_parse_date (parseIso : String → IsoParseResult) (s : String) : IsoParseResult :=
  let replaced := s.toList.flatMap
    (fun c => if c = 'Z' then ['+', '0', '0', ':', '0', '0'] else [c])
  let firstSeg := replaced.takeWhile (fun c => c ≠ '.')
  parseIso ⟨firstSeg⟩

/-- The retention decision of `fetch_nasa_data` for one record
(lines 169-181): when a truthy date string is found and parses naive,
skip the record if the date is before `now - 7` days; on a parse failure
(`ValueError`, `pass`ed) or a falsy date string, keep the record; when
the date parses timezone-aware, the naive comparison raises an uncaught
`TypeError` (`.error ()`), aborting the adapter and the run. -/
def nasa_keeps (parseIso : String → IsoParseResult) (now : Int) (item : NasaItem) :
    Except Unit Bool :=
  match nasa_pub_date_str item with
  | none => .ok true
  | some s =>
    if s = "" then .ok true
    else
      match nasa_parse_date parseIso s with
      | .naive d => .ok (!(decide (d < now - 7)))
      | .aware _ => .error ()
      | .failed => .ok true

/-- The records of a NASA response that survive the date check and are
appended to `results` (besides the upstream `published.gte` query
parameter of lines 136-140); `.error ()` when some record's date check
raises the uncaught `TypeError`, losing the whole result list. -/
def fetch_nasa_retained (parseIso : String → IsoParseResult) (now : Int) :
    List NasaItem → Except Unit (List NasaItem)
  | [] => .ok []
  | item :: rest =>
    match nasa_keeps parseIso now item with
    | .error e => .error e
    | .ok true =>
      match fetch_nasa_retained parseIso now rest with
      | .error e => .error e
      | .ok tail => .ok (item :: tail)
    | .ok false => fetch_nasa_retained parseIso now rest

/-- The parse outcome for the effective publication date
`fetch_nasa_data` compares against the window: `some r` exactly when a
truthy date string was found and handed to `fromisoformat`. -/
def nasa_effective_date (parseIso : String → IsoParseResult) (item : NasaItem) :
    Option IsoParseResult :=
  match nasa_pub_date_str item with
  | none => none
  | some s => if s = "" then none else some (nasa_parse_date parseIso s)

/-- One arXiv feed entry as the date check of `fetch_arxiv_data` sees it:
feedparser's `published_parsed` struct is already a parsed timestamp
(`none` when the key is absent). -/
structure ArxivEntry where
  published_parsed : Option Int
deriving DecidableEq

/-- The retention decision of `fetch_arxiv_data` (lines 97-102): skip an
entry whose parsed publication timestamp is before `now - 7` days; keep an
entry with no `published_parsed`. -/
def arxiv_keeps (now : Int) (e : ArxivEntry) : Bool :=
  match e.published_parsed with
  | some d => !(decide (d < now - 7))
  | none => true

/-- The entries of an arXiv feed that survive the date check. -/
def fetch_arxiv_retained (now : Int) (entries : List ArxivEntry) : List ArxivEntry :=
  entries.filter (arxiv_keeps now)

/-- The field of one OpenAlex work read by the date check of
`fetch_openalex_data` (lines 245-253). -/
structure OpenAlexItem where
  publication_date : Option String
deriving DecidableEq

/-- The retention decision of `fetch_openalex_data` (lines 246-253): when
`publication_date` is truthy and `strptime(s, "%Y-%m-%d")` parses, skip
the record if the date is before `now - 7` days; keep it on a parse
failure or a falsy date (besides the upstream `publication_year` filter
of lines 227-231, which is a calendar-year filter, not a 7-day one). -/
def openalex_keeps (parseYmd : String → Option Int) (now : Int)
    (item : OpenAlexItem) : Bool :=
  match item.publication_date with
  | none => true
  | some s =>
    if s = "" then true
    else
      match parseYmd s with
      | some d => !(decide (d < now - 7))
      | none => true

/-- The records of an OpenAlex response that survive the date check. -/
def fetch_openalex_retained (parseYmd : String → Option Int) (now : Int)
    (items : List OpenAlexItem) : List OpenAlexItem :=
  items.filter (openalex_keeps parseYmd now)

/-- The effective publication date `fetch_openalex_data` compares against
the window. -/
def openalex_effective_date (parseYmd : String → Option Int) (item : OpenAlexItem) :
    Option Int :=
  match item.publication_date with
  | none => none
  | some s => if s = "" then none else parseYmd s

/-- One Federal Register document as returned to `fetch_faa_data`.  The
function reads `title`, `abstract`, `description`, `pdf_url` and
`html_url`; `publication_date` is carried by the upstream JSON but never
read by the code. -/
structure FaaItem where
  title : Option String
  abstract : Option String
  description : Option String
  pdf_url : Option String
  html_url : Option String
  publication_date : Option String
deriving DecidableEq

/-- The result loop of `fetch_faa_data` (lines 311-326) appends a
candidate for every record of the response: it contains no `continue`
and reads no date field, so every record is retained. -/
def fetch_faa_retained (items : List FaaItem) : List FaaItem :=
  items

/-- One Brave web result as read by `fetch_brave_data` (lines 360-374);
`page_age` is carried by the upstream JSON but never read by the code. -/
structure BraveItem where
  title : Option String
  url : Option String
  description : Option String
  page_age : Option String
deriving DecidableEq

/-- The retention decision of `fetch_brave_data` (lines 360-366): a record
is skipped exactly when its `url` is falsy; no date field is consulted. -/
def brave_keeps (item : BraveItem) : Bool :=
  pyTruthyStr item.url

/-- The records of a Brave response that are appended to `results`. -/
def fetch_brave_retained (items : List BraveItem) : List BraveItem :=
  items.filter brave_keeps

/-- Phrased from the spec sentence "Each adapter applies a 7-day recency
window ... via a local secondary check comparing a parsed publication
date against now − 7 days", specialised to the FAA adapter: every record
it retains whose `publication_date` parses is within the window. -/
def faa_applies_recency_window (parseDate : String → Option Int) (now : Int) : Prop :=
  ∀ items item, item ∈ fetch_faa_retained items →
    ∀ d, (item.publication_date.bind parseDate) = some d → now - 7 ≤ d

/-- A candidate the dedup/accept loop will skip when the seen-set is
(at least) `S`: falsy url, already-seen url, or a `.pdf` url the verifier
reports unreadable. -/
def blocked (verifier : String → Bool × String) (S : List String)
    (item : Candidate) : Prop :=
  match item.url with
  | none => True
  | some u => u = "" ∨ u ∈ S ∨ (is_pdf_url u = true ∧ (verifier u).1 = false)

/-! ### Helper lemmas about the dedup/accept loop -/

theorem blocked_mono {verifier : String → Bool × String} {S S' : List String}
    {item : Candidate} (hS : S ⊆ S') (h : blocked verifier S item) :
    blocked verifier S' item := by
  unfold blocked at h ⊢
  cases hu : item.url with
  | none => trivial
  | some u =>
    rw [hu] at h
    have h' : u = "" ∨ u ∈ S ∨ (is_pdf_url u = true ∧ (verifier u).1 = false) := h
    show u = "" ∨ u ∈ S' ∨ (is_pdf_url u = true ∧ (verifier u).1 = false)
    rcases h' with h' | h' | h'
    · exact Or.inl h'
    · exact Or.inr (Or.inl (hS h'))
    · exact Or.inr (Or.inr h')

theorem process_item_seen_mono (verifier : String → Bool × String)
    (date_str : String) (st : RunState) (item : Candidate) :
    st.seen ⊆ (process_item verifier date_str st item).seen := by
  unfold process_item
  cases item.url with
  | none => exact fun a ha => ha
  | some u =>
    by_cases h1 : u = ""
    · simp [h1]
    · by_cases h2 : u ∈ st.seen
      · simp [h1, h2]
      · by_cases h3 : (if is_pdf_url u then (verifier u).1 else true) = true
        · simp [h1, h2, h3, List.subset_cons_self]
        · simp [h1, h2, h3]

theorem foldl_seen_mono (verifier : String → Bool × String) (date_str : String)
    (items : List Candidate) :
    ∀ st : RunState, st.seen ⊆ ((items.foldl (process_item verifier date_str) st).seen) := by
  induction items with
  | nil => intro st; exact fun a ha => ha
  | cons hd tl ih =>
    intro st
    exact (process_item_seen_mono verifier date_str st hd).trans (ih _)

theorem process_item_blocked {verifier : String → Bool × String}
    {date_str : String} {st : RunState} {item : Candidate}
    (h : blocked verifier st.seen item) :
    process_item verifier date_str st item = st := by
  unfold blocked at h
  unfold process_item
  cases hu : item.url with
  | none => rfl
  | some u =>
    rw [hu] at h
    rcases h with h | h | h
    · simp [h]
    · simp [h]
    · by_cases h1 : u = ""
      · simp [h1]
      · by_cases h2 : u ∈ st.seen
        · simp [h1, h2]
        · simp [h1, h2, h.1, h.2]

theorem process_item_self_blocked (verifier : String → Bool × String)
    (date_str : String) (st : RunState) (item : Candidate) :
    blocked verifier ((process_item verifier date_str st item).seen) item := by
  unfold blocked
  cases hu : item.url with
  | none => trivial
  | some u =>
    by_cases h1 : u = ""
    · exact Or.inl h1
    · by_cases h2 : u ∈ st.seen
      · exact Or.inr (Or.inl (process_item_seen_mono verifier date_str st item h2))
      · by_cases h3 : (if is_pdf_url u then (verifier u).1 else true) = true
        · refine Or.inr (Or.inl ?_)
          unfold process_item
          rw [hu]
          simp [h1, h2, h3]
        · refine Or.inr (Or.inr ?_)
          by_cases hp : is_pdf_url u
          · rw [if_pos hp] at h3
            exact ⟨hp, Bool.not_eq_true _ ▸ Bool.of_not_eq_true h3⟩
          · rw [if_neg hp] at h3
            exact absurd rfl h3

theorem foldl_all_blocked (verifier : String → Bool × String) (date_str : String) :
    ∀ (items : List Candidate) (st : RunState) (item : Candidate), item ∈ items →
      blocked verifier ((items.foldl (process_item verifier date_str) st).seen) item := by
  intro items
  induction items with
  | nil => intro st item h; cases h
  | cons hd tl ih =>
    intro st item hmem
    rcases List.mem_cons.mp hmem with rfl | h
    · exact blocked_mono (foldl_seen_mono verifier date_str tl _)
        (process_item_self_blocked verifier date_str st item)
    · exact ih (process_item verifier date_str st hd) item h

theorem foldl_blocked_id (verifier : String → Bool × String) (date_str : String) :
    ∀ (items : List Candidate) (st : RunState),
      (∀ item ∈ items, blocked verifier st.seen item) →
      items.foldl (process_item verifier date_str) st = st := by
  intro items
  induction items with
  | nil => intro st _; rfl
  | cons hd tl ih =>
    intro st h
    have h1 : process_item verifier date_str st hd = st :=
      process_item_blocked (h hd (List.mem_cons_self hd tl))
    calc (hd :: tl).foldl (process_item verifier date_str) st
        = tl.foldl (process_item verifier date_str) (process_item verifier date_str st hd) := rfl
      _ = tl.foldl (process_item verifier date_str) st := by rw [h1]
      _ = st := ih st (fun i hi => h i (List.mem_cons_of_mem hd hi))

theorem nasa_keeps_eq (parseIso : String → IsoParseResult) (now : Int) (item : NasaItem) :
    nasa_keeps parseIso now item =
      match nasa_effective_date parseIso item with
      | none => .ok true
      | some .failed => .ok true
      | some (.naive d) => .ok (!(decide (d < now - 7)))
      | some (.aware _) => .error () := by
  unfold nasa_keeps nasa_effective_date
  cases nasa_pub_date_str item with
  | none => rfl
  | some s =>
    by_cases he : s = ""
    · simp [he]
    · simp only [he, if_false]
      cases nasa_parse_date parseIso s <;> rfl

theorem openalex_keeps_eq (parseYmd : String → Option Int) (now : Int)
    (item : OpenAlexItem) :
    openalex_keeps parseYmd now item =
      match openalex_effective_date parseYmd item with
      | some d => !(decide (d < now - 7))
      | none => true := by
  unfold openalex_keeps openalex_effective_date
  cases item.publication_date with
  | none => rfl
  | some s =>
    by_cases he : s = ""
    · simp [he]
    · simp only [he, if_false]

/-! ### Claim theorems -/

/-- C2: a candidate reaching the accept stage (present, non-empty url not
yet seen) whose url has a case-insensitive `.pdf` suffix is accepted — log
entry appended, url added to the seen-set, count bumped — if and only if
the verifier reports it readable; a candidate whose url has no `.pdf`
suffix is accepted unconditionally and the outcome is independent of the
verifier (it is never consulted). -/
theorem pdf_gating_iff_readable (verifier : String → Bool × String)
    (date_str : String) (st : RunState) (item : Candidate) (u : String)
    (hu : item.url = some u) (hne : u ≠ "") (hseen : u ∉ st.seen) :
    (is_pdf_url u = true →
      (process_item verifier date_str st item =
        { seen := u :: st.seen,
          log := st.log ++ [format_log_entry date_str item u],
          count := st.count + 1 } ↔ (verifier u).1 = true)) ∧
    (is_pdf_url u = false →
      process_item verifier date_str st item =
        { seen := u :: st.seen,
          log := st.log ++ [format_log_entry date_str item u],
          count := st.count + 1 } ∧
      ∀ verifier' : String → Bool × String,
        process_item verifier' date_str st item =
          process_item verifier date_str st item) := by
  constructor
  · intro hpdf
    constructor
    · intro hacc
      by_contra hv
      have hv' : (verifier u).1 = false := Bool.not_eq_true _ ▸ Bool.of_not_eq_true hv
      have hst : process_item verifier date_str st item = st := by
        unfold process_item
        rw [hu]
        simp [hne, hseen, hpdf, hv']
      rw [hst] at hacc
      have := congrArg RunState.count hacc
      simp at this
    · intro hv
      unfold process_item
      rw [hu]
      simp [hne, hseen, hpdf, hv]
  · intro hpdf
    constructor
    · unfold process_item
      rw [hu]
      simp [hne, hseen, hpdf]
    · intro verifier'
      unfold process_item
      rw [hu]
      simp [hne, hseen, hpdf]

/-- Witness for C2 at concrete inputs: a readable `.pdf` candidate and a
non-pdf candidate, both fresh in an empty state. -/
theorem pdf_gating_iff_readable_witness :
    ((is_pdf_url "http://x/a.pdf" = true →
      (process_item (fun _ => (true, "t")) "2026-10-12" ⟨[], [], 0⟩
          ⟨"T", some "http://x/a.pdf", "A", "NASA", "r"⟩ =
        { seen := "http://x/a.pdf" :: ([] : List String),
          log := [] ++ [format_log_entry "2026-10-12"
            ⟨"T", some "http://x/a.pdf", "A", "NASA", "r"⟩ "http://x/a.pdf"],
          count := 0 + 1 } ↔ ((fun _ => (true, "t")) "http://x/a.pdf").1 = true)) ∧
    (is_pdf_url "http://x/a.pdf" = false →
      process_item (fun _ => (true, "t")) "2026-10-12" ⟨[], [], 0⟩
          ⟨"T", some "http://x/a.pdf", "A", "NASA", "r"⟩ =
        { seen := "http://x/a.pdf" :: ([] : List String),
          log := [] ++ [format_log_entry "2026-10-12"
            ⟨"T", some "http://x/a.pdf", "A", "NASA", "r"⟩ "http://x/a.pdf"],
          count := 0 + 1 } ∧
      ∀ verifier' : String → Bool × String,
        process_item verifier' "2026-10-12" ⟨[], [], 0⟩
            ⟨"T", some "http://x/a.pdf", "A", "NASA", "r"⟩ =
          process_item (fun _ => (true, "t")) "2026-10-12" ⟨[], [], 0⟩
            ⟨"T", some "http://x/a.pdf", "A", "NASA", "r"⟩)) ∧
    ((is_pdf_url "http://x/page" = true →
      (process_item (fun _ => (false, "")) "2026-10-12" ⟨[], [], 0⟩
          ⟨"T", some "http://x/page", "A", "FAA", "r"⟩ =
        { seen := "http://x/page" :: ([] : List String),
          log := [] ++ [format_log_entry "2026-10-12"
            ⟨"T", some "http://x/page", "A", "FAA", "r"⟩ "http://x/page"],
          count := 0 + 1 } ↔ ((fun _ => (false, "")) "http://x/page").1 = true)) ∧
    (is_pdf_url "http://x/page" = false →
      process_item (fun _ => (false, "")) "2026-10-12" ⟨[], [], 0⟩
          ⟨"T", some "http://x/page", "A", "FAA", "r"⟩ =
        { seen := "http://x/page" :: ([] : List String),
          log := [] ++ [format_log_entry "2026-10-12"
            ⟨"T", some "http://x/page", "A", "FAA", "r"⟩ "http://x/page"],
          count := 0 + 1 } ∧
      ∀ verifier' : String → Bool × String,
        process_item verifier' "2026-10-12" ⟨[], [], 0⟩
            ⟨"T", some "http://x/page", "A", "FAA", "r"⟩ =
          process_item (fun _ => (false, "")) "2026-10-12" ⟨[], [], 0⟩
            ⟨"T", some "http://x/page", "A", "FAA", "r"⟩)) :=
  ⟨pdf_gating_iff_readable (fun _ => (true, "t")) "2026-10-12" ⟨[], [], 0⟩
      ⟨"T", some "http://x/a.pdf", "A", "NASA", "r"⟩ "http://x/a.pdf" rfl
      (by decide) (by simp),
   pdf_gating_iff_readable (fun _ => (false, "")) "2026-10-12" ⟨[], [], 0⟩
      ⟨"T", some "http://x/page", "A", "FAA", "r"⟩ "http://x/page" rfl
      (by decide) (by simp)⟩

/-- C3: re-running the dedup/accept loop on the same candidate list,
starting from the seen-set produced by the first run, accepts nothing:
the count is zero and no new log entries are written. -/
theorem dedup_idempotent (verifier : String → Bool × String)
    (d1 d2 : String) (seen0 : List String) (items : List Candidate) :
    (run_loop verifier d2 (run_loop verifier d1 seen0 items).seen items).count = 0 ∧
    (run_loop verifier d2 (run_loop verifier d1 seen0 items).seen items).log = [] := by
  have hall : ∀ item ∈ items,
      blocked verifier (run_loop verifier d1 seen0 items).seen item :=
    fun item hi => foldl_all_blocked verifier d1 items ⟨seen0, [], 0⟩ item hi
  have hid : run_loop verifier d2 (run_loop verifier d1 seen0 items).seen items =
      ⟨(run_loop verifier d1 seen0 items).seen, [], 0⟩ :=
    foldl_blocked_id verifier d2 items
      ⟨(run_loop verifier d1 seen0 items).seen, [], 0⟩ hall
  rw [hid]
  exact ⟨rfl, rfl⟩

/-- C4: the seen-set persisted at the end of a run contains every url of
the seen-set loaded at the start, and no single loop iteration ever
removes a url from the seen-set. -/
theorem seen_set_monotone (verifier : String → Bool × String)
    (date_str : String) (items : List Candidate) (f : SeenFileState) :
    load_seen_ids f ⊆
      load_seen_ids (save_seen_ids
        (run_loop verifier date_str (load_seen_ids f) items).seen) ∧
    ∀ (st : RunState) (item : Candidate),
      st.seen ⊆ (process_item verifier date_str st item).seen :=
  ⟨foldl_seen_mono verifier date_str items ⟨load_seen_ids f, [], 0⟩,
   fun st item => process_item_seen_mono verifier date_str st item⟩

/-- C9: a candidate whose `url` key is absent is dropped silently — the
loop state (seen-set, log, count) is returned unchanged. -/
theorem missing_url_dropped (verifier : String → Bool × String)
    (date_str : String) (st : RunState) (item : Candidate)
    (h : item.url = none) :
    process_item verifier date_str st item = st := by
  unfold process_item
  rw [h]

/-- Witness for C9: a concrete url-less candidate leaves a concrete state
untouched. -/
theorem missing_url_dropped_witness :
    process_item (fun _ => (true, "t")) "2026-10-12" ⟨["a"], ["b"], 1⟩
      ⟨"T", none, "A", "NASA", "r"⟩ = ⟨["a"], ["b"], 1⟩ :=
  missing_url_dropped (fun _ => (true, "t")) "2026-10-12" ⟨["a"], ["b"], 1⟩
    ⟨"T", none, "A", "NASA", "r"⟩ rfl

/-- C1 (documents the defect): the candidate list reaching the
dedup/accept loop is only `nasa ++ faa` — the fetched arXiv, OpenAlex and
Brave outputs are dead stores and never processed.  Concretely, when only
the arXiv adapter returns a (fresh, readable) candidate, the loop
processes an empty list and accepts nothing. -/
theorem pipeline_drops_non_nasa_faa_sources :
    (∀ nasa faa arxiv openalex brave : List Candidate,
      main_candidate_list nasa faa arxiv openalex brave = nasa ++ faa) ∧
    main_candidate_list [] []
      [⟨"T", some "https://arxiv.org/pdf/1234.pdf", "A", "arXiv", "r"⟩] [] [] = [] ∧
    (run_loop (fun _ => (true, "t")) "2026-10-12" []
      (main_candidate_list [] []
        [⟨"T", some "https://arxiv.org/pdf/1234.pdf", "A", "arXiv", "r"⟩] [] [])).count
      = 0 :=
  ⟨fun _ _ _ _ _ => rfl, rfl, rfl⟩

/-- C5 counterexample: for the 5-sentence abstract of the claim, the
summary is `"S1. S2. S3..."` (splitting on `". "` leaves the period of
each sentence with the separator), not `"S1. S2. S3...."`. -/
theorem summary_truncation_counterexample :
    summarize "S1. S2. S3. S4. S5." ≠ "S1. S2. S3...." := by decide

/-- C5 amended: the summary of the 5-sentence abstract is
`"S1. S2. S3..."` — the first three pieces of the `". "` split re-joined
with `". "` (so no period remains after `S3`) plus the three-dot ellipsis;
no ellipsis is appended when at most three sentences are present, and the
fixed placeholder is used for an empty abstract. -/
theorem summary_truncation_amended :
    summarize "S1. S2. S3. S4. S5." = "S1. S2. S3..." ∧
    summarize "" = "No abstract available." ∧
    summarize "Only one sentence." = "Only one sentence." ∧
    summarize "A. B. C. D" = "A. B. C..." := by decide

/-- C7: `verify_pdf_readability` returns `(false, "")` on a transport
error, a non-success status or a document parse failure (and, being a
total function, never raises); on a parsed document it looks only at the
first page's text, returning `(true, first 500 characters)` when that
text is non-empty after trimming whitespace and `(false, "")` otherwise. -/
theorem verify_pdf_readability_spec :
    verify_pdf_readability .transportError = (false, "") ∧
    verify_pdf_readability .parseFailure = (false, "") ∧
    (∀ (text : String) (rest : List String),
      verify_pdf_readability (.document (text :: rest)) =
        if py_strip_nonempty text then (true, text.take 500) else (false, "")) ∧
    (∀ (text : String) (rest rest' : List String),
      verify_pdf_readability (.document (text :: rest)) =
        verify_pdf_readability (.document (text :: rest'))) := by
  refine ⟨rfl, rfl, ?_, fun _ _ _ => rfl⟩
  intro text rest
  show (if (text != "") && py_strip_nonempty text then (true, text.take 500)
    else (false, "")) = _
  by_cases h : py_strip_nonempty text = true
  · have ht : (text != "") = true := by
      rcases eq_or_ne text "" with he | he
      · rw [he] at h
        exact absurd h (by decide)
      · simpa [bne_iff_ne] using he
    simp [h, ht]
  · have h' : py_strip_nonempty text = false := by
      cases hb : py_strip_nonempty text
      · rfl
      · exact absurd hb h
    simp [h']

/-- C8: a missing backing file and a file whose contents are not valid
JSON both load as the empty seen-set (no exception is modelled: the
function is total), and a run started from either state is the same run
as one started from the empty seen-set. -/
theorem load_seen_ids_fail_open :
    load_seen_ids .absent = [] ∧
    load_seen_ids .invalidJson = [] ∧
    (∀ (verifier : String → Bool × String) (date_str : String)
        (items : List Candidate),
      run_loop verifier date_str (load_seen_ids .invalidJson) items =
        run_loop verifier date_str [] items) ∧
    (∀ (verifier : String → Bool × String) (date_str : String)
        (items : List Candidate),
      run_loop verifier date_str (load_seen_ids .absent) items =
        run_loop verifier date_str [] items) :=
  ⟨rfl, rfl, fun _ _ _ => rfl, fun _ _ _ => rfl⟩

/-- C10: a url that fetches and parses as a PDF document with zero pages
is reported unreadable: `verify_pdf_readability` falls through to
`(false, "")` even though neither fetch nor parse failed. -/
theorem zero_page_pdf_not_readable :
    verify_pdf_readability (.document []) = (false, "") := rfl

/-- C6 counterexample: the FAA adapter applies no recency window — a
Federal Register record whose `publication_date` parses to a date far
older than `now - 7` is still retained. -/
theorem recency_window_counterexample :
    ¬ faa_applies_recency_window
      (fun s => if s = "2020-01-01" then some 0 else none) 1000 := by
  intro h
  have hmem :
      (⟨some "AD 2020-01", none, none, some "https://x/ad.pdf", none,
        some "2020-01-01"⟩ : FaaItem) ∈
      fetch_faa_retained
        [⟨some "AD 2020-01", none, none, some "https://x/ad.pdf", none,
          some "2020-01-01"⟩] :=
    List.mem_singleton_self _
  have hle := h _ _ hmem 0 rfl
  omega

/-- C6 amended: the arXiv and OpenAlex adapters apply the 7-day window
through a local check — a record whose publication date parses is kept
exactly when the date is at least `now - 7`, and a record whose date is
missing or unparsable is kept (fail-open).  The NASA adapter does the
same for dates `fromisoformat` parses timezone-naive, but a date that
parses timezone-aware (offset suffix surviving the `Z`-rewrite and
`split('.')`) makes the naive comparison raise a `TypeError` that
`except ValueError` does not catch, aborting the run.  The FAA adapter
retains every record of the response and the Brave adapter retains every
record with a truthy url, neither consulting any date. -/
theorem recency_window_amended :
    (∀ (parseIso : String → IsoParseResult) (now : Int) (item : NasaItem),
      (nasa_effective_date parseIso item = none ∨
        nasa_effective_date parseIso item = some .failed) →
        nasa_keeps parseIso now item = .ok true) ∧
    (∀ (parseIso : String → IsoParseResult) (now d : Int) (item : NasaItem),
      nasa_effective_date parseIso item = some (.naive d) →
        (nasa_keeps parseIso now item = .ok true ↔ now - 7 ≤ d)) ∧
    (∀ (parseIso : String → IsoParseResult) (now d : Int) (item : NasaItem),
      nasa_effective_date parseIso item = some (.aware d) →
        nasa_keeps parseIso now item = .error ()) ∧
    (∀ (now : Int) (e : ArxivEntry), e.published_parsed = none →
      arxiv_keeps now e = true) ∧
    (∀ (now d : Int) (e : ArxivEntry), e.published_parsed = some d →
      (arxiv_keeps now e = true ↔ now - 7 ≤ d)) ∧
    (∀ (parseYmd : String → Option Int) (now : Int) (item : OpenAlexItem),
      openalex_effective_date parseYmd item = none →
        openalex_keeps parseYmd now item = true) ∧
    (∀ (parseYmd : String → Option Int) (now d : Int) (item : OpenAlexItem),
      openalex_effective_date parseYmd item = some d →
        (openalex_keeps parseYmd now item = true ↔ now - 7 ≤ d)) ∧
    (∀ items : List FaaItem, fetch_faa_retained items = items) ∧
    (∀ (items : List BraveItem) (item : BraveItem), item ∈ items →
      pyTruthyStr item.url = true → item ∈ fetch_brave_retained items) := by
  refine ⟨?_, ?_, ?_, ?_, ?_, ?_, ?_, fun _ => rfl, ?_⟩
  · intro parseIso now item h
    rcases h with h | h <;> rw [nasa_keeps_eq, h]
  · intro parseIso now d item h
    rw [nasa_keeps_eq, h]
    simp [not_lt]
  · intro parseIso now d item h
    rw [nasa_keeps_eq, h]
  · intro now e h
    unfold arxiv_keeps
    rw [h]
  · intro now d e h
    unfold arxiv_keeps
    rw [h]
    simp [not_lt]
  · intro parseYmd now item h
    rw [openalex_keeps_eq, h]
  · intro parseYmd now d item h
    rw [openalex_keeps_eq, h]
    simp [not_lt]
  · intro items item hmem hurl
    exact List.mem_filter.mpr ⟨hmem, hurl⟩

/-- Witness for C6 amended, at concrete records: a date-less NASA record
is kept and a NASA record with a fresh naive parsed date satisfies the
window equivalence, while one whose date parses timezone-aware aborts
with the uncaught `TypeError`; arXiv and OpenAlex satisfy fail-open and
the window equivalence; a concrete FAA response is retained wholesale; a
concrete Brave record with a url is retained. -/
theorem recency_window_amended_witness :
    nasa_keeps (fun _ => .failed) 100 ⟨[], none, none⟩ = .ok true ∧
    (nasa_keeps (fun _ => .naive 99) 100 ⟨[⟨some (some "D")⟩], none, none⟩ =
      .ok true ↔ (100 : Int) - 7 ≤ 99) ∧
    nasa_keeps (fun _ => .aware 0) 100
      ⟨[⟨some (some "2026-10-10T00:01:00Z")⟩], none, none⟩ = .error () ∧
    arxiv_keeps 100 ⟨none⟩ = true ∧
    (arxiv_keeps 100 ⟨some 99⟩ = true ↔ (100 : Int) - 7 ≤ 99) ∧
    openalex_keeps (fun _ => none) 100 ⟨some "oops"⟩ = true ∧
    (openalex_keeps (fun _ => some 99) 100 ⟨some "2026-10-10"⟩ = true ↔
      (100 : Int) - 7 ≤ 99) ∧
    fetch_faa_retained [⟨some "AD", none, none, none, some "https://x", none⟩] =
      [⟨some "AD", none, none, none, some "https://x", none⟩] ∧
    (⟨some "B", some "https://y", none, none⟩ : BraveItem) ∈
      fetch_brave_retained [⟨some "B", some "https://y", none, none⟩] :=
  ⟨recency_window_amended.1 (fun _ => .failed) 100 ⟨[], none, none⟩ (Or.inl rfl),
   recency_window_amended.2.1 (fun _ => .naive 99) 100 99
     ⟨[⟨some (some "D")⟩], none, none⟩ (by decide),
   recency_window_amended.2.2.1 (fun _ => .aware 0) 100 0
     ⟨[⟨some (some "2026-10-10T00:01:00Z")⟩], none, none⟩ (by decide),
   recency_window_amended.2.2.2.1 100 ⟨none⟩ rfl,
   recency_window_amended.2.2.2.2.1 100 99 ⟨some 99⟩ rfl,
   recency_window_amended.2.2.2.2.2.1 (fun _ => none) 100 ⟨some "oops"⟩ (by decide),
   recency_window_amended.2.2.2.2.2.2.1 (fun _ => some 99) 100 99 ⟨some "2026-10-10"⟩
     (by decide),
   recency_window_amended.2.2.2.2.2.2.2.1 _,
   recency_window_amended.2.2.2.2.2.2.2.2 _ _ (List.mem_singleton_self _) (by decide)⟩
